import Mathlib

/-!
Verification of the spatiotemporal drone-state engine of the swarm
visualization dashboard: time interpolation between discrete samples,
categorical filtering, 3D-to-2D projection, pairwise geometric analytics
(detection-range overlap, coverage estimation, segment-segment closest
points and near-intersection detection), and trajectory assembly.

Numeric values are modelled by `ℚ` (ideal exact semantics of the source's
arithmetic); square roots and the circle constant live in `ℝ`.
-/

/-- A 3D vector `{x, y, z}` as used for positions and velocities. -/
structure Vec3 where
  x : ℚ
  y : ℚ
  z : ℚ
deriving DecidableEq, Repr

/-- Orientation `{pitch, roll, yaw}` in degrees. -/
structure Orientation3 where
  pitch : ℚ
  roll : ℚ
  yaw : ℚ
deriving DecidableEq, Repr

/-- One agent sample (`DroneData` in the source): per-(droneId, timePoint)
record of categorical tags, kinematic state and sensing data. -/
structure Drone where
  droneId : String
  timePoint : ℤ
  swarmId : String
  taskId : String
  state : String
  position : Vec3
  velocity : Vec3
  orientation : Orientation3
  batteryPercentage : ℚ
  detectionRange : ℚ
  signalIntensity : ℚ
  videoFeedbackOn : Bool
deriving DecidableEq, Repr

/-- A dataset (`DroneSwarmDataset`): ordered time indices plus the full
sample collection. -/
structure Dataset where
  timePoints : List ℤ
  drones : List Drone
deriving DecidableEq, Repr

/-- `getDronesAtTime` from `mockData`: every sample whose `timePoint`
equals the given index. -/
def getDronesAtTime (source : Dataset) (timePoint : ℤ) : List Drone :=
  source.drones.filter (fun drone => drone.timePoint = timePoint)

/-- The filter specification (`VisualizationFilters`). -/
structure VisualizationFilters where
  selectedSwarms : List String
  selectedTasks : List String
  selectedStates : List String
  batteryRange : ℚ × ℚ
  showTrajectories : Bool
  showDetectionRanges : Bool
  showVelocityVectors : Bool
  showSignalIntensity : Bool
  showVideoFeedback : Bool
deriving DecidableEq, Repr

/-- `matchesFilters` from `DroneSwarmDashboard`: conjunction of swarm
membership, task membership, the state clause (vacuous when
`selectedStates` is empty) and the inclusive battery range. -/
def matchesFilters (filters : VisualizationFilters) (drone : Drone) : Bool :=
  filters.selectedSwarms.contains drone.swarmId &&
  filters.selectedTasks.contains drone.taskId &&
  (filters.selectedStates.length == 0 || filters.selectedStates.contains drone.state) &&
  decide (filters.batteryRange.1 ≤ drone.batteryPercentage) &&
  decide (drone.batteryPercentage ≤ filters.batteryRange.2)

/-- `Math.max(0, dataset.timePoints.length - 1)`. -/
def maxIndex (d : Dataset) : ℤ :=
  max 0 ((d.timePoints.length : ℤ) - 1)

/-- `lerp` from `interpolatedDrones`: `from + (to - from) * alpha`. -/
def lerp (a b alpha : ℚ) : ℚ :=
  a + (b - a) * alpha

/-- The per-drone interpolation body of `interpolatedDrones`: every numeric
field linearly interpolated, `videoFeedbackOn` switching at `t = 0.5`. -/
def lerpDrone (t : ℚ) (drone next : Drone) : Drone :=
  { drone with
    position :=
      { x := lerp drone.position.x next.position.x t
        y := lerp drone.position.y next.position.y t
        z := lerp drone.position.z next.position.z t }
    velocity :=
      { x := lerp drone.velocity.x next.velocity.x t
        y := lerp drone.velocity.y next.velocity.y t
        z := lerp drone.velocity.z next.velocity.z t }
    orientation :=
      { pitch := lerp drone.orientation.pitch next.orientation.pitch t
        roll := lerp drone.orientation.roll next.orientation.roll t
        yaw := lerp drone.orientation.yaw next.orientation.yaw t }
    batteryPercentage := lerp drone.batteryPercentage next.batteryPercentage t
    detectionRange := lerp drone.detectionRange next.detectionRange t
    signalIntensity := lerp drone.signalIntensity next.signalIntensity t
    videoFeedbackOn := if t < 1/2 then drone.videoFeedbackOn else next.videoFeedbackOn }

/-- The `endById` JS `Map` built from a drone list keyed by `droneId`
(later entries overwrite earlier ones). -/
def endById (l : List Drone) (id : String) : Option Drone :=
  l.foldl (fun acc drone => if drone.droneId = id then some drone else acc) none

/-- `interpolatedDrones` from `DroneSwarmDashboard` (lines 180-231), with the
`matchesFilters` closure abstracted as the predicate `f`: clamp the current
time, take the filtered start samples, and when the fractional part is
nonzero interpolate toward the filtered end samples. -/
def interpolatedDrones (d : Dataset) (f : Drone → Bool) (currentTime : ℚ) : List Drone :=
  if d.timePoints = [] then []
  else
    let maxIdx : ℤ := maxIndex d
    let clampedTime : ℚ := min (max currentTime 0) (maxIdx : ℚ)
    let startIndex : ℤ := ⌊clampedTime⌋
    let endIndex : ℤ := min (startIndex + 1) maxIdx
    let t : ℚ := clampedTime - startIndex
    let startDrones := (getDronesAtTime d startIndex).filter f
    if t = 0 ∨ endIndex = startIndex then startDrones
    else
      let endDrones := (getDronesAtTime d endIndex).filter f
      startDrones.map (fun drone =>
        match endById endDrones drone.droneId with
        | none => drone
        | some next => lerpDrone t drone next)

/-- Evaluation of `interpolatedDrones` at an integer time in range: the
clamp is the identity, the fractional part is zero, and the filtered start
samples are returned unmodified. -/
theorem interp_at_integer (d : Dataset) (f : Drone → Bool) (tz : ℤ)
    (hne : d.timePoints ≠ []) (h0 : 0 ≤ tz) (h1 : tz ≤ maxIndex d) :
    interpolatedDrones d f (tz : ℚ) = (getDronesAtTime d tz).filter f := by
  unfold interpolatedDrones
  rw [if_neg hne]
  have hmax : max ((tz : ℚ)) 0 = (tz : ℚ) := max_eq_left (by exact_mod_cast h0)
  have hmin : min ((tz : ℚ)) ((maxIndex d : ℚ)) = (tz : ℚ) :=
    min_eq_left (by exact_mod_cast h1)
  simp only [hmax, hmin, Int.floor_intCast, sub_self]
  simp

/-- Evaluation of `interpolatedDrones` at a strictly fractional in-range
time: the interpolation branch is taken with start index `⌊time⌋` and end
index `⌊time⌋ + 1`. -/
theorem interp_at_frac (d : Dataset) (f : Drone → Bool) (time : ℚ)
    (hne : d.timePoints ≠ []) (h0 : 0 ≤ time) (hlt : time < (maxIndex d : ℚ))
    (hfr : (⌊time⌋ : ℚ) ≠ time) :
    interpolatedDrones d f time =
      ((getDronesAtTime d ⌊time⌋).filter f).map (fun drone =>
        match endById ((getDronesAtTime d (⌊time⌋ + 1)).filter f) drone.droneId with
        | none => drone
        | some next => lerpDrone (time - ⌊time⌋) drone next) := by
  unfold interpolatedDrones
  rw [if_neg hne]
  have hmax : max time 0 = time := max_eq_left h0
  have hmin : min time ((maxIndex d : ℚ)) = time := min_eq_left hlt.le
  have hfloor : ⌊time⌋ < maxIndex d := by
    have h2 : (⌊time⌋ : ℚ) < (maxIndex d : ℚ) := lt_of_le_of_lt (Int.floor_le time) hlt
    exact_mod_cast h2
  have hend : min (⌊time⌋ + 1) (maxIndex d) = ⌊time⌋ + 1 := min_eq_left (by omega)
  simp only [hmax, hmin, hend]
  rw [if_neg]
  push_neg
  constructor
  · intro h
    exact hfr (sub_eq_zero.mp h).symm
  · omega

/-- C1: for every dataset with a non-empty time-index sequence and every
integer `t` in `[0, maxIndex]`, `interpolatedDrones` (the code's
`interpolate`) returns exactly the filtered samples at index `t` with
every field unmodified; with no filter restriction it is exactly
`getDronesAtTime` (the code's `samplesAtIndex`). -/
theorem interpolate_integer_boundary_exact (d : Dataset) (f : Drone → Bool) (tz : ℤ)
    (hne : d.timePoints ≠ []) (h0 : 0 ≤ tz) (h1 : tz ≤ maxIndex d) :
    interpolatedDrones d f (tz : ℚ) = (getDronesAtTime d tz).filter f ∧
    interpolatedDrones d (fun _ => true) (tz : ℚ) = getDronesAtTime d tz := by
  refine ⟨interp_at_integer d f tz hne h0 h1, ?_⟩
  rw [interp_at_integer d (fun _ => true) tz hne h0 h1, List.filter_true]

/-- Base record for concrete sample inputs. -/
def baseDrone : Drone :=
  { droneId := "d1", timePoint := 0, swarmId := "alpha", taskId := "hover",
    state := "hovering", position := ⟨0, 0, 0⟩, velocity := ⟨0, 0, 0⟩,
    orientation := ⟨0, 0, 0⟩, batteryPercentage := 100, detectionRange := 50,
    signalIntensity := 5, videoFeedbackOn := true }

/-- Scenario A agent at `t = 0` with `x = 6`. -/
def scenarioDrone0 : Drone := { baseDrone with position := ⟨6, 5, 7⟩ }

/-- Scenario A agent at `t = 1` with `x = 21`. -/
def scenarioDrone1 : Drone :=
  { baseDrone with
    timePoint := 1
    position := ⟨21, 5, 7⟩
    batteryPercentage := 90
    videoFeedbackOn := false }

/-- Scenario A dataset: one agent, two time indices. -/
def scenarioDataset : Dataset :=
  { timePoints := [0, 1], drones := [scenarioDrone0, scenarioDrone1] }

theorem interpolate_integer_boundary_exact_witness :
    interpolatedDrones scenarioDataset (fun _ => true) ((1 : ℤ) : ℚ) =
      getDronesAtTime scenarioDataset 1 :=
  (interpolate_integer_boundary_exact scenarioDataset (fun _ => true) 1
    (by decide) (by decide) (by decide)).2


/-- C2: at a strictly fractional in-range time, every start-index agent
whose id is found among the (filtered) end-index samples appears in the
output with position, velocity, orientation, battery, detectionRange and
signalIntensity interpolated component-wise as `from + (to - from) * frac`
and `videoFeedbackOn` switching from the start value to the end value at
`frac = 0.5`; Scenario A: `x = 6` at `t = 0` and `x = 21` at `t = 1` give
`x = 13.5` at continuous time `0.5`. -/
theorem interpolate_fractional_componentwise :
    (∀ (d : Dataset) (f : Drone → Bool) (time : ℚ) (a b : Drone),
      d.timePoints ≠ [] → 0 ≤ time → time < (maxIndex d : ℚ) → (⌊time⌋ : ℚ) ≠ time →
      a ∈ (getDronesAtTime d ⌊time⌋).filter f →
      endById ((getDronesAtTime d (⌊time⌋ + 1)).filter f) a.droneId = some b →
      ∃ c ∈ interpolatedDrones d f time,
        c.droneId = a.droneId ∧
        c.position.x = a.position.x + (b.position.x - a.position.x) * (time - ⌊time⌋) ∧
        c.position.y = a.position.y + (b.position.y - a.position.y) * (time - ⌊time⌋) ∧
        c.position.z = a.position.z + (b.position.z - a.position.z) * (time - ⌊time⌋) ∧
        c.velocity.x = a.velocity.x + (b.velocity.x - a.velocity.x) * (time - ⌊time⌋) ∧
        c.velocity.y = a.velocity.y + (b.velocity.y - a.velocity.y) * (time - ⌊time⌋) ∧
        c.velocity.z = a.velocity.z + (b.velocity.z - a.velocity.z) * (time - ⌊time⌋) ∧
        c.orientation.pitch =
          a.orientation.pitch + (b.orientation.pitch - a.orientation.pitch) * (time - ⌊time⌋) ∧
        c.orientation.roll =
          a.orientation.roll + (b.orientation.roll - a.orientation.roll) * (time - ⌊time⌋) ∧
        c.orientation.yaw =
          a.orientation.yaw + (b.orientation.yaw - a.orientation.yaw) * (time - ⌊time⌋) ∧
        c.batteryPercentage =
          a.batteryPercentage + (b.batteryPercentage - a.batteryPercentage) * (time - ⌊time⌋) ∧
        c.detectionRange =
          a.detectionRange + (b.detectionRange - a.detectionRange) * (time - ⌊time⌋) ∧
        c.signalIntensity =
          a.signalIntensity + (b.signalIntensity - a.signalIntensity) * (time - ⌊time⌋) ∧
        c.videoFeedbackOn =
          (if time - ⌊time⌋ < 1/2 then a.videoFeedbackOn else b.videoFeedbackOn)) ∧
    (interpolatedDrones scenarioDataset (fun _ => true) (1/2 : ℚ)).map
        (fun drone => drone.position.x) = [27/2] := by
  constructor
  · intro d f time a b hne h0 hlt hfr ha hb
    rw [interp_at_frac d f time hne h0 hlt hfr]
    refine ⟨lerpDrone (time - ⌊time⌋) a b, List.mem_map.mpr ⟨a, ha, by rw [hb]⟩, ?_⟩
    simp [lerpDrone, lerp]
  · have hmi : maxIndex scenarioDataset = 1 := by decide
    have hfl : ⌊(1/2 : ℚ)⌋ = 0 := by norm_num
    rw [interp_at_frac scenarioDataset (fun _ => true) (1/2) (by decide) (by norm_num)
      (by rw [hmi]; norm_num) (by rw [hfl]; norm_num)]
    rw [hfl]
    simp [getDronesAtTime, scenarioDataset, scenarioDrone0, scenarioDrone1, baseDrone,
      endById, lerpDrone, lerp]
    norm_num

theorem interpolate_fractional_componentwise_witness :
    ∃ c ∈ interpolatedDrones scenarioDataset (fun _ => true) (1/2 : ℚ),
      c.position.x = scenarioDrone0.position.x +
        (scenarioDrone1.position.x - scenarioDrone0.position.x) * ((1/2 : ℚ) - ⌊(1/2 : ℚ)⌋) := by
  have hmi : maxIndex scenarioDataset = 1 := by decide
  have hfl : ⌊(1/2 : ℚ)⌋ = 0 := by norm_num
  obtain ⟨c, hc, h⟩ := interpolate_fractional_componentwise.1 scenarioDataset
    (fun _ => true) (1/2) scenarioDrone0 scenarioDrone1 (by decide) (by norm_num)
    (by rw [hmi]; norm_num) (by rw [hfl]; norm_num)
    (by rw [hfl]; decide)
    (by rw [hfl]; simp [getDronesAtTime, scenarioDataset, scenarioDrone0, scenarioDrone1,
      baseDrone, endById])
  exact ⟨c, hc, h.2.1⟩

/-- Start-index sample for the battery scenario: battery 59, inside `[0, 60]`. -/
def batteryDrone0 : Drone :=
  { baseDrone with taskId := "patrol", batteryPercentage := 59 }

/-- End-index sample for the battery scenario: battery 100, outside `[0, 60]`. -/
def batteryDrone1 : Drone :=
  { baseDrone with
    taskId := "patrol"
    timePoint := 1
    position := ⟨10, 10, 10⟩
    batteryPercentage := 100 }

/-- Battery scenario dataset. -/
def batteryDataset : Dataset :=
  { timePoints := [0, 1], drones := [batteryDrone0, batteryDrone1] }

/-- Filter specification whose battery range `[0, 60]` accepts the start
sample but rejects the end sample of the battery scenario. -/
def batteryFilters : VisualizationFilters :=
  { selectedSwarms := ["alpha"]
    selectedTasks := ["patrol"]
    selectedStates := []
    batteryRange := (0, 60)
    showTrajectories := false
    showDetectionRanges := false
    showVelocityVectors := false
    showSignalIntensity := true
    showVideoFeedback := true }

/-- C10: at fractional times the filter predicate is evaluated on the
stored start-index and end-index samples, never on interpolated values: a
start-index agent that passes the filter and has no end-index sample
passing the filter is returned with its start-sample values unchanged; in
the battery scenario the drone with stored battery 59 is kept unmodified
under battery range `[0, 60]` even though its would-be interpolated
battery `lerp 59 100 0.5 = 79.5` lies outside that range. -/
theorem filter_on_stored_samples_not_interpolated :
    (∀ (d : Dataset) (f : Drone → Bool) (time : ℚ) (a : Drone),
      d.timePoints ≠ [] → 0 ≤ time → time < (maxIndex d : ℚ) → (⌊time⌋ : ℚ) ≠ time →
      a ∈ (getDronesAtTime d ⌊time⌋).filter f →
      endById ((getDronesAtTime d (⌊time⌋ + 1)).filter f) a.droneId = none →
      a ∈ interpolatedDrones d f time) ∧
    interpolatedDrones batteryDataset (matchesFilters batteryFilters) (1/2 : ℚ) =
      [batteryDrone0] ∧
    ¬ (lerp batteryDrone0.batteryPercentage batteryDrone1.batteryPercentage (1/2 : ℚ) ≤
        batteryFilters.batteryRange.2) := by
  have hmi : maxIndex batteryDataset = 1 := by decide
  have hfl : ⌊(1/2 : ℚ)⌋ = 0 := by norm_num
  have hm0 : matchesFilters batteryFilters batteryDrone0 = true := by
    simp [matchesFilters, batteryFilters, batteryDrone0, baseDrone]
    norm_num
  have hm1 : matchesFilters batteryFilters batteryDrone1 = false := by
    simp [matchesFilters, batteryFilters, batteryDrone1, baseDrone]
    norm_num
  refine ⟨?_, ?_, ?_⟩
  · intro d f time a hne h0 hlt hfr ha hnone
    rw [interp_at_frac d f time hne h0 hlt hfr]
    exact List.mem_map.mpr ⟨a, ha, by rw [hnone]⟩
  · rw [interp_at_frac batteryDataset (matchesFilters batteryFilters) (1/2) (by decide)
      (by norm_num) (by rw [hmi]; norm_num) (by rw [hfl]; norm_num), hfl]
    decide
  · norm_num [lerp, batteryDrone0, batteryDrone1, batteryFilters, baseDrone]

theorem filter_on_stored_samples_not_interpolated_witness :
    batteryDrone0 ∈ interpolatedDrones batteryDataset (matchesFilters batteryFilters) (1/2 : ℚ) := by
  have hmi : maxIndex batteryDataset = 1 := by decide
  have hfl : ⌊(1/2 : ℚ)⌋ = 0 := by norm_num
  have hm0 : matchesFilters batteryFilters batteryDrone0 = true := by
    simp [matchesFilters, batteryFilters, batteryDrone0, baseDrone]
    norm_num
  have hm1 : matchesFilters batteryFilters batteryDrone1 = false := by
    simp [matchesFilters, batteryFilters, batteryDrone1, baseDrone]
    norm_num
  exact filter_on_stored_samples_not_interpolated.1 batteryDataset
    (matchesFilters batteryFilters) (1/2) batteryDrone0 (by decide) (by norm_num)
    (by rw [hmi]; norm_num) (by rw [hfl]; norm_num)
    (by rw [hfl]; decide) (by rw [hfl]; decide)

/-- Filters selecting no particular state (empty `selectedStates`). -/
def openFilters : VisualizationFilters :=
  { selectedSwarms := ["alpha"]
    selectedTasks := ["hover"]
    selectedStates := []
    batteryRange := (0, 100)
    showTrajectories := false
    showDetectionRanges := false
    showVelocityVectors := false
    showSignalIntensity := true
    showVideoFeedback := true }

/-- The same filters restricted to the single state tag `"hovering"`. -/
def hoveringFilters : VisualizationFilters :=
  { openFilters with selectedStates := ["hovering"] }

/-- An agent whose state tag is `"descending"`. -/
def descendingDrone : Drone := { baseDrone with state := "descending" }

/-- C6: `matchesFilters` is the conjunction of swarm-tag membership,
task-tag membership, the state clause — vacuously true when
`selectedStates` is empty — and the inclusive battery range; an empty
state selection accepts the `"descending"` agent, while selecting only
`"hovering"` rejects it. -/
theorem matches_empty_state_selection :
    (∀ (filters : VisualizationFilters) (drone : Drone),
      matchesFilters filters drone = true ↔
        (drone.swarmId ∈ filters.selectedSwarms ∧ drone.taskId ∈ filters.selectedTasks ∧
         (filters.selectedStates = [] ∨ drone.state ∈ filters.selectedStates) ∧
         filters.batteryRange.1 ≤ drone.batteryPercentage ∧
         drone.batteryPercentage ≤ filters.batteryRange.2)) ∧
    matchesFilters openFilters descendingDrone = true ∧
    matchesFilters hoveringFilters descendingDrone = false := by
  refine ⟨?_, by decide, by decide⟩
  intro filters drone
  simp [matchesFilters, Bool.and_eq_true, Bool.or_eq_true, decide_eq_true_eq,
    List.length_eq_zero, and_assoc]

/-- `MAP_MIN` from `DroneRangeMap2D`. -/
def MAP_MIN : ℚ := 0

/-- `MAP_MAX` from `DroneRangeMap2D`. -/
def MAP_MAX : ℚ := 100

/-- `MAP_SIZE = MAP_MAX - MAP_MIN`. -/
def MAP_SIZE : ℚ := MAP_MAX - MAP_MIN

/-- `EDGE_PADDING = MAP_SIZE * 0.04`. -/
def EDGE_PADDING : ℚ := MAP_SIZE * (4/100)

/-- The world bounding box `{min, max}` of a dataset. -/
structure BoundingBox where
  min : Vec3
  max : Vec3
deriving DecidableEq, Repr

/-- `normalizeToMap` from `DroneRangeMap2D`: linear map of `[minValue,
minValue + span]` onto `[MAP_MIN, MAP_MAX]`. -/
def normalizeToMap (coordinate minValue span : ℚ) : ℚ :=
  (coordinate - minValue) / span * MAP_SIZE + MAP_MIN

/-- `clampWithMargin` from `DroneRangeMap2D`: clamp into
`[MAP_MIN + EDGE_PADDING, MAP_MAX - EDGE_PADDING]`. -/
def clampWithMargin (value : ℚ) : ℚ :=
  min (max value (MAP_MIN + EDGE_PADDING)) (MAP_MAX - EDGE_PADDING)

/-- The 2D projection of `DroneRangeMap2D` (lines 228-263): spans
substituted to be at least 1, `x` normalized and clamped, `y` flipped
(`MAP_MAX - normalizedZ`) and clamped. -/
def projectToMap (position : Vec3) (bounds3d : BoundingBox) : ℚ × ℚ :=
  let spanX := max (bounds3d.max.x - bounds3d.min.x) 1
  let spanZ := max (bounds3d.max.z - bounds3d.min.z) 1
  let normalizedX := normalizeToMap position.x bounds3d.min.x spanX
  let normalizedZ := normalizeToMap position.z bounds3d.min.z spanZ
  (clampWithMargin normalizedX, clampWithMargin (MAP_MAX - normalizedZ))

/-- `clampWithMargin` lands in `[4, 96]`. -/
theorem clampWithMargin_mem (v : ℚ) :
    4 ≤ clampWithMargin v ∧ clampWithMargin v ≤ 96 := by
  unfold clampWithMargin
  have h1 : MAP_MIN + EDGE_PADDING = 4 := by
    norm_num [MAP_MIN, MAP_MAX, MAP_SIZE, EDGE_PADDING]
  have h2 : MAP_MAX - EDGE_PADDING = 96 := by
    norm_num [MAP_MIN, MAP_MAX, MAP_SIZE, EDGE_PADDING]
  rw [h1, h2]
  exact ⟨le_min (le_max_right _ _) (by norm_num), min_le_right _ _⟩

/-- C5: both coordinates of the 2D projection always lie in
`[margin, 100 - margin]` with `margin = 0.04 * 100 = 4`, for every
position and every bounding box, degenerate boxes included; the
substituted spans are at least 1, so no division by a zero span occurs. -/
theorem project_clamped_into_margin (position : Vec3) (bounds3d : BoundingBox) :
    4 ≤ (projectToMap position bounds3d).1 ∧ (projectToMap position bounds3d).1 ≤ 96 ∧
    4 ≤ (projectToMap position bounds3d).2 ∧ (projectToMap position bounds3d).2 ≤ 96 ∧
    (1 : ℚ) ≤ max (bounds3d.max.x - bounds3d.min.x) 1 ∧
    (1 : ℚ) ≤ max (bounds3d.max.z - bounds3d.min.z) 1 := by
  unfold projectToMap
  refine ⟨(clampWithMargin_mem _).1, (clampWithMargin_mem _).2,
    (clampWithMargin_mem _).1, (clampWithMargin_mem _).2,
    le_max_right _ _, le_max_right _ _⟩

/-- Componentwise vector subtraction (`THREE.Vector3.sub`). -/
def Vec3.sub (a b : Vec3) : Vec3 := ⟨a.x - b.x, a.y - b.y, a.z - b.z⟩

/-- Dot product (`THREE.Vector3.dot`). -/
def Vec3.dot (a b : Vec3) : ℚ := a.x * b.x + a.y * b.y + a.z * b.z

/-- `a.addScaledVector u s = a + u * s` componentwise. -/
def Vec3.addScaled (a u : Vec3) (s : ℚ) : Vec3 :=
  ⟨a.x + u.x * s, a.y + u.y * s, a.z + u.z * s⟩

/-- Squared Euclidean distance; the source's `distanceTo` is its square
root, taken in `ℝ` at the statement level. -/
def distSqV (a b : Vec3) : ℚ :=
  (a.x - b.x) ^ 2 + (a.y - b.y) ^ 2 + (a.z - b.z) ^ 2

/-- `EPS = 1e-6` from `closestPointsBetweenSegments`. -/
def EPS : ℚ := 1 / 1000000

/-- The closest-point computation of `closestPointsBetweenSegments`
(`DroneVisualization3D` lines 76-161), returning the two clamped closest
points. The mutable `sN, sD, tN, tD` of the source are threaded as a
quadruple through the two update stages. -/
def closestPointsAux (p1 p2 q1 q2 : Vec3) : Vec3 × Vec3 :=
  let u := Vec3.sub p2 p1
  let v := Vec3.sub q2 q1
  let w := Vec3.sub p1 q1
  let a := Vec3.dot u u
  let b := Vec3.dot u v
  let c := Vec3.dot v v
  let d := Vec3.dot u w
  let e := Vec3.dot v w
  if a ≤ EPS ∧ c ≤ EPS then (p1, q1)
  else
    let s1 : ℚ × ℚ × ℚ × ℚ :=
      if a ≤ EPS then (0, 1, e, c)
      else if c ≤ EPS then (-d, a, 0, 1)
      else
        let sN := b * e - c * d
        let tN := a * e - b * d
        if sN < 0 then (0, a, e, c)
        else if sN > a then (a, a, e + b, c)
        else (sN, a, tN, c)
    let s2 : ℚ × ℚ × ℚ × ℚ :=
      let sN := s1.1
      let sD := s1.2.1
      let tN := s1.2.2.1
      let tD := s1.2.2.2
      if tN < 0 then
        if -d < 0 then (0, sD, 0, tD)
        else if -d > a then (sD, sD, 0, tD)
        else (-d, a, 0, tD)
      else if tN > tD then
        if -d + b < 0 then (0, sD, tD, tD)
        else if -d + b > a then (sD, sD, tD, tD)
        else (-d + b, a, tD, tD)
      else (sN, sD, tN, tD)
    let sc : ℚ := if |s2.1| < EPS then 0 else s2.1 / s2.2.1
    let tc : ℚ := if |s2.2.2.1| < EPS then 0 else s2.2.2.1 / s2.2.2.2
    (Vec3.addScaled p1 u sc, Vec3.addScaled q1 v tc)

/-- Result record of `closestPointsBetweenSegments`: the two closest
points and the (squared) distance between them. -/
structure SegResult where
  pointA : Vec3
  pointB : Vec3
  distSq : ℚ
deriving DecidableEq, Repr

/-- `closestPointsBetweenSegments`: closest points of the two segments
plus `distance = pointA.distanceTo(pointB)`, kept as its square. -/
def closestPointsBetweenSegments (p1 p2 q1 q2 : Vec3) : SegResult :=
  let pts := closestPointsAux p1 p2 q1 q2
  { pointA := pts.1, pointB := pts.2, distSq := distSqV pts.1 pts.2 }

/-- On fully degenerate input both direction dot products are zero, so the
early-return branch fires with the two endpoints. -/
theorem closestPointsAux_degenerate (p q : Vec3) :
    closestPointsAux p p q q = (p, q) := by
  cases p
  cases q
  norm_num [closestPointsAux, Vec3.sub, Vec3.dot, EPS]

/-- The point of three-dimensional Euclidean space (`L²` metric) with the
coordinates of a `Vec3`. -/
noncomputable def toE3 (p : Vec3) : EuclideanSpace ℝ (Fin 3) :=
  (WithLp.equiv 2 (Fin 3 → ℝ)).symm ![(p.x : ℝ), (p.y : ℝ), (p.z : ℝ)]

/-- C8: with both segments degenerate to single points,
`closestPointsBetweenSegments(p, p, q, q)` returns the endpoints `p` and
`q` themselves, and its distance is exactly the direct Euclidean distance
`|p - q|`. -/
theorem closest_points_degenerate_exact (p q : Vec3) :
    (closestPointsBetweenSegments p p q q).pointA = p ∧
    (closestPointsBetweenSegments p p q q).pointB = q ∧
    Real.sqrt ((closestPointsBetweenSegments p p q q).distSq : ℝ) =
      dist (toE3 p) (toE3 q) := by
  have haux : closestPointsAux p p q q = (p, q) := closestPointsAux_degenerate p q
  refine ⟨by simp [closestPointsBetweenSegments, haux],
    by simp [closestPointsBetweenSegments, haux], ?_⟩
  have hd : (closestPointsBetweenSegments p p q q).distSq = distSqV p q := by
    simp [closestPointsBetweenSegments, haux]
  rw [hd, EuclideanSpace.dist_eq]
  congr 1
  simp only [toE3, WithLp.equiv_symm_pi_apply, Fin.sum_univ_three, Matrix.cons_val_zero,
    Matrix.cons_val_one, Matrix.head_cons, Matrix.cons_val_two, Matrix.tail_cons,
    Real.dist_eq, sq_abs, distSqV]
  push_cast
  ring

/-- Componentwise vector addition (`THREE.Vector3.add`). -/
def Vec3.add (a b : Vec3) : Vec3 := ⟨a.x + b.x, a.y + b.y, a.z + b.z⟩

/-- `THREE.Vector3.multiplyScalar`. -/
def Vec3.multiplyScalar (a : Vec3) (s : ℚ) : Vec3 := ⟨a.x * s, a.y * s, a.z * s⟩

/-- `VECTOR_INTERSECTION_THRESHOLD = 25`. -/
def VECTOR_INTERSECTION_THRESHOLD : ℚ := 25

/-- A velocity-vector segment (`VelocityVectorInfo`): agent id, display
color, and the 3D segment from `start` to `end` (named `endP`, as `end`
is reserved). -/
structure VVec where
  id : String
  color : String
  start : Vec3
  endP : Vec3
deriving DecidableEq, Repr

/-- A near-intersection marker (`VelocityIntersection`). -/
structure VelocityIntersection where
  id : String
  position : Vec3
  color : String
deriving DecidableEq, Repr

/-- The ordered enumeration of index pairs `(i, j)`, `i < j`, of the
source's nested loops, as a pair list. -/
def allPairs {α : Type} : List α → List (α × α)
  | [] => []
  | a :: rest => rest.map (fun b => (a, b)) ++ allPairs rest

/-- The marker key: the unordered pair of the two agent ids,
`a.id < b.id ? a-b : b-a`. -/
def pairKey (a b : VVec) : String :=
  if a.id < b.id then a.id ++ "-" ++ b.id else b.id ++ "-" ++ a.id

/-- Decidable form over `ℚ` of the source's comparison
`distance <= threshold` where `distance = sqrt dsq` (valid for
`0 ≤ dsq`). -/
def sqrtLeB (dsq s : ℚ) : Bool :=
  if 0 ≤ s then decide (dsq ≤ s ^ 2) else false

/-- Decidable form over `ℚ` of the source's comparison
`distance < threshold` where `distance = sqrt dsq` (valid for
`0 ≤ dsq`). -/
def sqrtLtB (dsq s : ℚ) : Bool :=
  if 0 ≤ s then decide (dsq < s ^ 2) else false

/-- `vectorIntersections` from `DroneVisualization3D` (lines 640-667): for
every pair `(i, j)`, `i < j`, of velocity vectors whose closest-approach
distance is at most the threshold, emit a marker at the midpoint of the
two closest points, keyed by the unordered id pair. -/
def vectorIntersections (vecs : List VVec) : List VelocityIntersection :=
  (allPairs vecs).filterMap (fun pr =>
    let r := closestPointsBetweenSegments pr.1.start pr.1.endP pr.2.start pr.2.endP
    if sqrtLeB r.distSq VECTOR_INTERSECTION_THRESHOLD then
      some { id := pairKey pr.1 pr.2
             position := Vec3.multiplyScalar (Vec3.add r.pointA r.pointB) (1/2)
             color := pr.1.color }
    else none)

/-- A squared distance is nonnegative. -/
theorem distSqV_nonneg (a b : Vec3) : 0 ≤ distSqV a b := by
  unfold distSqV
  positivity

/-- The `distSq` field of a closest-point result is nonnegative. -/
theorem segResult_distSq_nonneg (p1 p2 q1 q2 : Vec3) :
    0 ≤ (closestPointsBetweenSegments p1 p2 q1 q2).distSq :=
  distSqV_nonneg _ _

/-- `sqrtLeB` agrees with the real comparison `√dsq ≤ s`. -/
theorem sqrtLeB_iff (dsq s : ℚ) :
    sqrtLeB dsq s = true ↔ Real.sqrt (dsq : ℝ) ≤ (s : ℝ) := by
  unfold sqrtLeB
  split
  · next hs =>
    simp only [decide_eq_true_eq]
    rw [show ((s : ℝ)) = Real.sqrt ((s : ℝ) ^ 2) from
      (Real.sqrt_sq (by exact_mod_cast hs)).symm]
    rw [Real.sqrt_le_sqrt_iff (by positivity)]
    constructor
    · intro hle
      exact_mod_cast hle
    · intro hle
      exact_mod_cast hle
  · next hs =>
    simp only [Bool.false_eq_true, false_iff, not_le]
    calc (s : ℝ) < 0 := by exact_mod_cast not_le.mp hs
    _ ≤ Real.sqrt (dsq : ℝ) := Real.sqrt_nonneg _

/-- `sqrtLtB` agrees with the real comparison `√dsq < s`. -/
theorem sqrtLtB_iff (dsq s : ℚ) (h : 0 ≤ dsq) :
    sqrtLtB dsq s = true ↔ Real.sqrt (dsq : ℝ) < (s : ℝ) := by
  unfold sqrtLtB
  split
  · next hs =>
    simp only [decide_eq_true_eq]
    rw [show ((s : ℝ)) = Real.sqrt ((s : ℝ) ^ 2) from
      (Real.sqrt_sq (by exact_mod_cast hs)).symm]
    rw [Real.sqrt_lt_sqrt_iff (by exact_mod_cast h)]
    constructor
    · intro hle
      exact_mod_cast hle
    · intro hle
      exact_mod_cast hle
  · next hs =>
    simp only [Bool.false_eq_true, false_iff, not_lt]
    have hneg : (s : ℝ) < 0 := by exact_mod_cast not_le.mp hs
    exact hneg.le.trans (Real.sqrt_nonneg _)

section
open Classical

/-- C7 (amended): markers are emitted for exactly the pairs whose
closest-approach distance is at most (`<=`, not strictly below) the
threshold 25, positioned at the midpoint of the two closest points and
keyed by the unordered id pair, which is identical regardless of which
agent of the pair is enumerated first. -/
theorem near_intersection_markers_at_most_threshold :
    (∀ a b : VVec, pairKey a b = pairKey b a) ∧
    ∀ vecs : List VVec,
      vectorIntersections vecs = (allPairs vecs).filterMap (fun pr =>
        let r := closestPointsBetweenSegments pr.1.start pr.1.endP pr.2.start pr.2.endP
        if Real.sqrt (r.distSq : ℝ) ≤ ((VECTOR_INTERSECTION_THRESHOLD : ℚ) : ℝ) then
          some { id := pairKey pr.1 pr.2
                 position := Vec3.multiplyScalar (Vec3.add r.pointA r.pointB) (1/2)
                 color := pr.1.color }
        else none) := by
  constructor
  · intro a b
    unfold pairKey
    rcases lt_trichotomy a.id b.id with h | h | h
    · rw [if_pos h, if_neg (not_lt.mpr h.le)]
    · rw [h]
    · rw [if_neg (not_lt.mpr h.le), if_pos h]
  · intro vecs
    unfold vectorIntersections
    refine List.filterMap_congr ?_
    intro pr _
    simp only []
    exact if_congr (sqrtLeB_iff _ _) rfl rfl

end

/-- First velocity vector of the exact-threshold pair. -/
def vvA : VVec :=
  { id := "a", color := "#22c55e", start := ⟨0, 0, 0⟩, endP := ⟨300, 0, 0⟩ }

/-- Second velocity vector of the exact-threshold pair: parallel to the
first at perpendicular distance exactly 25. -/
def vvB : VVec :=
  { id := "b", color := "#22c55e", start := ⟨0, 25, 0⟩, endP := ⟨300, 25, 0⟩ }

/-- The closest-point result of the exact-threshold pair. -/
theorem closest_vvA_vvB :
    closestPointsBetweenSegments vvA.start vvA.endP vvB.start vvB.endP =
      { pointA := ⟨0, 0, 0⟩, pointB := ⟨0, 25, 0⟩, distSq := 625 } := by
  norm_num [closestPointsBetweenSegments, closestPointsAux, vvA, vvB, Vec3.sub, Vec3.dot,
    Vec3.addScaled, distSqV, EPS]

/-- C7 counterexample: at closest-approach distance exactly 25 — not
strictly below the threshold — the code still emits a marker, refuting
the claim's strict reading. -/
theorem near_intersection_threshold_counterexample :
    vectorIntersections [vvA, vvB] ≠ [] ∧
    ¬ (Real.sqrt
        (((closestPointsBetweenSegments vvA.start vvA.endP vvB.start vvB.endP).distSq : ℚ) : ℝ)
        < ((VECTOR_INTERSECTION_THRESHOLD : ℚ) : ℝ)) := by
  have hsqrt : Real.sqrt
      (((closestPointsBetweenSegments vvA.start vvA.endP vvB.start vvB.endP).distSq : ℚ) : ℝ)
      = 25 := by
    rw [closest_vvA_vvB]
    rw [show (((625 : ℚ) : ℝ)) = 25 ^ 2 by norm_num]
    exact Real.sqrt_sq (by norm_num)
  constructor
  · unfold vectorIntersections allPairs
    have hb : sqrtLeB
        (closestPointsBetweenSegments vvA.start vvA.endP vvB.start vvB.endP).distSq
        VECTOR_INTERSECTION_THRESHOLD = true := by
      rw [closest_vvA_vvB]
      norm_num [sqrtLeB, VECTOR_INTERSECTION_THRESHOLD]
    simp [hb]
  · rw [hsqrt]
    norm_num [VECTOR_INTERSECTION_THRESHOLD]

/-- Squared planar (x-z) distance `dx*dx + dz*dz` between two agents'
positions, from `detectionCoverage`. -/
def planarDistSq (a b : Drone) : ℚ :=
  (a.position.x - b.position.x) ^ 2 + (a.position.z - b.position.z) ^ 2

/-- The overlap test of `detectionCoverage`:
`distance < detectionRange_i + detectionRange_j` (strict). -/
def overlapsB (a b : Drone) : Bool :=
  sqrtLtB (planarDistSq a b) (a.detectionRange + b.detectionRange)

/-- The `overlapPairs` counter of `detectionCoverage` (`DroneAssistantPanel`
lines 660-671): the nested `i < j` loops count the overlapping pairs. -/
def overlapPairs (drones : List Drone) : ℕ :=
  ((allPairs drones).filter (fun pr => overlapsB pr.1 pr.2)).length

/-- `totalPairs = n * (n - 1) / 2` from `detectionCoverage`. -/
def totalPairs (drones : List Drone) : ℕ :=
  drones.length * (drones.length - 1) / 2

/-- `totalCoverageArea`: the sum of `Math.PI * r * r` over all agents
(`Math.PI` modelled as the exact real `π`). -/
noncomputable def totalCoverageArea (drones : List Drone) : ℝ :=
  drones.foldl
    (fun sum drone => sum + Real.pi * (drone.detectionRange : ℝ) * (drone.detectionRange : ℝ)) 0

/-- `boundingArea = max((maxX - minX) * (maxZ - minZ), 0)` of the
axis-aligned x-z rectangle enclosing every agent's disc
(`position ± detectionRange` per axis); the `±Infinity` seeds of the
source's scan are realised by seeding the fold with the first agent. -/
def boundingArea (drones : List Drone) : ℚ :=
  match drones with
  | [] => 0
  | first :: rest =>
    let minX := rest.foldl (fun m dr => min m (dr.position.x - dr.detectionRange))
      (first.position.x - first.detectionRange)
    let maxX := rest.foldl (fun m dr => max m (dr.position.x + dr.detectionRange))
      (first.position.x + first.detectionRange)
    let minZ := rest.foldl (fun m dr => min m (dr.position.z - dr.detectionRange))
      (first.position.z - first.detectionRange)
    let maxZ := rest.foldl (fun m dr => max m (dr.position.z + dr.detectionRange))
      (first.position.z + first.detectionRange)
    max ((maxX - minX) * (maxZ - minZ)) 0

/-- `coveragePercent` from `detectionCoverage`: `0` for an empty agent
list or a non-positive bounding area, else
`min(100, totalCoverageArea / boundingArea * 100)`. -/
noncomputable def coveragePercent (drones : List Drone) : ℝ :=
  if drones = [] then 0
  else if 0 < boundingArea drones then
    min 100 (totalCoverageArea drones / (boundingArea drones : ℝ) * 100)
  else 0

/-- A planar squared distance is nonnegative. -/
theorem planarDistSq_nonneg (a b : Drone) : 0 ≤ planarDistSq a b := by
  unfold planarDistSq
  positivity

/-- The summed disc area is nonnegative. -/
theorem totalCoverageArea_nonneg (drones : List Drone) : 0 ≤ totalCoverageArea drones := by
  unfold totalCoverageArea
  have key : ∀ (l : List Drone) (c : ℝ), 0 ≤ c →
      0 ≤ l.foldl
        (fun sum drone => sum + Real.pi * (drone.detectionRange : ℝ) * drone.detectionRange) c := by
    intro l
    induction l with
    | nil => intro c hc; exact hc
    | cons dr tl ih =>
      intro c hc
      have h1 : 0 ≤ Real.pi * (dr.detectionRange : ℝ) * dr.detectionRange := by
        rw [mul_assoc]
        exact mul_nonneg Real.pi_pos.le (mul_self_nonneg _)
      refine ih _ ?_
      show 0 ≤ c + Real.pi * (dr.detectionRange : ℝ) * dr.detectionRange
      linarith
  exact key drones 0 le_rfl

/-- Agent at the origin with detection range 50. -/
def overlapDroneA : Drone := baseDrone

/-- Agent at planar distance 90.9 from the origin with detection range 50:
`90.9 < 50 + 50`, so the pair overlaps. -/
def overlapDroneB : Drone :=
  { baseDrone with droneId := "d2", position := ⟨909/10, 0, 0⟩ }

/-- C3: `overlapPairs` counts, over the `i < j` pairs, exactly those whose
planar Euclidean distance is strictly less than the sum of the two
detection ranges (tangency not counted), `totalPairs = n*(n-1)/2`, and the
two range-50 agents at planar distance 90.9 are counted, so
`overlapPairs ≥ 1` there. -/
theorem overlap_pairs_strict_planar_distance :
    (∀ a b : Drone,
      overlapsB a b = true ↔
        Real.sqrt ((planarDistSq a b : ℚ) : ℝ) <
          ((a.detectionRange + b.detectionRange : ℚ) : ℝ)) ∧
    (∀ drones : List Drone,
      overlapPairs drones = ((allPairs drones).filter (fun pr => overlapsB pr.1 pr.2)).length ∧
      totalPairs drones = drones.length * (drones.length - 1) / 2) ∧
    1 ≤ overlapPairs [overlapDroneA, overlapDroneB] := by
  refine ⟨?_, fun drones => ⟨rfl, rfl⟩, ?_⟩
  · intro a b
    exact sqrtLtB_iff (planarDistSq a b) _ (planarDistSq_nonneg a b)
  · have hb : overlapsB overlapDroneA overlapDroneB = true := by
      norm_num [overlapsB, sqrtLtB, planarDistSq, overlapDroneA, overlapDroneB, baseDrone]
    simp [overlapPairs, allPairs, hb]

/-- C4: `detectionCoverage` returns all-zero statistics for an empty agent
list; otherwise `coveragePercent` is `min(100, total/bounding*100)` when
the bounding area is positive and `0` when it is zero, so
`coveragePercent` always lies in `[0, 100]`. -/
theorem coverage_percent_clamped :
    (coveragePercent [] = 0 ∧ overlapPairs [] = 0 ∧ totalPairs [] = 0) ∧
    ∀ drones : List Drone,
      (0 ≤ coveragePercent drones ∧ coveragePercent drones ≤ 100) ∧
      (boundingArea drones = 0 → coveragePercent drones = 0) ∧
      (drones ≠ [] → 0 < boundingArea drones →
        coveragePercent drones =
          min 100 (totalCoverageArea drones / (boundingArea drones : ℝ) * 100)) := by
  refine ⟨⟨by simp [coveragePercent], rfl, rfl⟩, ?_⟩
  intro drones
  refine ⟨?_, ?_, ?_⟩
  · unfold coveragePercent
    split
    · norm_num
    · split
      · next hne hpos =>
        constructor
        · refine le_min (by norm_num) ?_
          have hca := totalCoverageArea_nonneg drones
          have hba : (0 : ℝ) < (boundingArea drones : ℝ) := by exact_mod_cast hpos
          positivity
        · exact min_le_left _ _
      · norm_num
  · intro hzero
    unfold coveragePercent
    split
    · rfl
    · rw [if_neg]
      rw [hzero]
      norm_num
  · intro hne hpos
    unfold coveragePercent
    rw [if_neg hne, if_pos hpos]

/-- An agent with a zero detection range at the origin, giving a
degenerate (zero-area) bounding rectangle. -/
def zeroRangeDrone : Drone := { baseDrone with detectionRange := 0 }

theorem coverage_percent_clamped_witness :
    (0 ≤ coveragePercent [baseDrone] ∧ coveragePercent [baseDrone] ≤ 100) ∧
    coveragePercent [zeroRangeDrone] = 0 ∧
    coveragePercent [baseDrone] =
      min 100 (totalCoverageArea [baseDrone] / ((10000 : ℚ) : ℝ) * 100) := by
  have hba : boundingArea [baseDrone] = 10000 := by
    norm_num [boundingArea, baseDrone]
  have hba0 : boundingArea [zeroRangeDrone] = 0 := by
    norm_num [boundingArea, zeroRangeDrone, baseDrone]
  refine ⟨(coverage_percent_clamped.2 [baseDrone]).1,
    (coverage_percent_clamped.2 [zeroRangeDrone]).2.1 hba0, ?_⟩
  rw [(coverage_percent_clamped.2 [baseDrone]).2.2 (by simp) (by rw [hba]; norm_num), hba]

/-- Ascending-`timePoint` comparison used by the source's
`.sort((a, b) => a.timePoint - b.timePoint)`. -/
def byTimePoint (a b : Drone) : Prop := a.timePoint ≤ b.timePoint

instance : DecidableRel byTimePoint := fun a b => Int.decLe a.timePoint b.timePoint

instance : IsTotal Drone byTimePoint := ⟨fun a b => Int.le_total a.timePoint b.timePoint⟩

instance : IsTrans Drone byTimePoint := ⟨fun _ _ _ => Int.le_trans⟩

/-- `getDroneTrajectory` from `mockData`: every sample with the given
`droneId`, sorted ascending by `timePoint` (stable sort, as JS `sort`). -/
def getDroneTrajectory (source : Dataset) (droneId : String) : List Drone :=
  List.insertionSort byTimePoint
    (source.drones.filter (fun drone => drone.droneId = droneId))

/-- One emitted trajectory path of `trajectoryPaths`
(`DroneSwarmDashboard` lines 286-308). -/
structure TrajectoryPath where
  droneId : String
  swarmId : String
  points : List (ℚ × ℚ × ℚ)
deriving DecidableEq, Repr

/-- The body of the `trajectoryPaths` loop for a single agent id: filter
the sorted history, skip it when it has at most one point, otherwise emit
the path of position triples (swarm tag taken from the last history
entry). -/
def trajectoryFor (d : Dataset) (droneId : String) (f : Drone → Bool) :
    Option TrajectoryPath :=
  let history := (getDroneTrajectory d droneId).filter f
  if h : history.length ≤ 1 then none
  else
    some { droneId := droneId
           swarmId := (history.getLast (fun he => h (by simp [he]))).swarmId
           points := history.map (fun entry =>
             (entry.position.x, entry.position.y, entry.position.z)) }

/-- C9: `trajectoryFor` collects exactly the samples with the given
agentId, sorted ascending by time index with the filter applied in that
order; it emits no path when at most one sample survives the filter, and
with two or more it emits a path with exactly that many points, in
ascending time order. -/
theorem trajectory_requires_two_points (d : Dataset) (droneId : String) (f : Drone → Bool) :
    List.Perm (getDroneTrajectory d droneId)
      (d.drones.filter (fun drone => drone.droneId = droneId)) ∧
    List.Sorted byTimePoint ((getDroneTrajectory d droneId).filter f) ∧
    (((getDroneTrajectory d droneId).filter f).length ≤ 1 →
      trajectoryFor d droneId f = none) ∧
    (2 ≤ ((getDroneTrajectory d droneId).filter f).length →
      ∃ path, trajectoryFor d droneId f = some path ∧
        path.points = ((getDroneTrajectory d droneId).filter f).map
          (fun entry => (entry.position.x, entry.position.y, entry.position.z)) ∧
        path.points.length = ((getDroneTrajectory d droneId).filter f).length) := by
  refine ⟨List.perm_insertionSort _ _, ?_, ?_, ?_⟩
  · exact (List.sorted_insertionSort byTimePoint _).filter _
  · intro hle
    unfold trajectoryFor
    rw [dif_pos hle]
  · intro h2
    unfold trajectoryFor
    rw [dif_neg (by omega)]
    exact ⟨_, rfl, rfl, by simp⟩

theorem trajectory_requires_two_points_witness :
    trajectoryFor scenarioDataset ("d1") (fun _ => false) = none ∧
    ∃ path, trajectoryFor scenarioDataset ("d1") (fun _ => true) = some path ∧
      path.points.length = 2 := by
  constructor
  · exact (trajectory_requires_two_points scenarioDataset ("d1") (fun _ => false)).2.2.1
      (by decide)
  · obtain ⟨path, hp, _, hlen⟩ :=
      (trajectory_requires_two_points scenarioDataset ("d1") (fun _ => true)).2.2.2 (by decide)
    exact ⟨path, hp, by rw [hlen]; decide⟩
